import Mathlib

/-!
# Verification of the canvas-recorder core

A shallow embedding of `src/CanvasRecorder.ts` (the first, current
`CanvasRecorder` class): the watermark compositor geometry
(`drawTextWatermark`, `drawWatermarkBars`, `drawImageWatermark`), the
per-frame composite pass (`drawWatermark`), a pixel-grid semantics for the
draw operations, the overlay image loader (`loadWatermarkImage`), and the
capture-session state machine (`constructor`, `start`, `stop`).

Numeric values are modelled as `ℚ` (JavaScript numbers, no NaN cases in
scope), optional fields as `Option`, and JS truthiness of a number as
"present and nonzero".
-/

namespace CanvasRecorder

/-- JS truthiness for an optional numeric value: `undefined`, absent, and
`0` are falsy; any other number is truthy. -/
def truthyNum (q : Option ℚ) : Bool :=
  match q with
  | none => false
  | some x => x != 0

/-- JS truthiness for an optional string: `undefined` and the empty string are falsy. -/
def truthyStr (s : Option String) : Bool :=
  match s with
  | none => false
  | some x => x != ""

/-- Position union `WatermarkPosition`: four corner keywords or a literal pixel pair. -/
inductive WatermarkPosition where
  | topLeft
  | topRight
  | bottomLeft
  | bottomRight
  | pixel (x y : ℚ)
  deriving DecidableEq, Repr

/-- Unit of a bar thickness, `ThicknessUnit`: pixels or percent. -/
inductive ThicknessUnit where
  | px
  | percent
  deriving DecidableEq, Repr

/-- Bar edge: the source types it as top or bottom. -/
inductive BarPosition where
  | top
  | bottom
  deriving DecidableEq, Repr

/-- Bar text alignment: left, right, or center. -/
inductive TextAlign where
  | left
  | right
  | center
  deriving DecidableEq, Repr

/-- Bar descriptor `WatermarkBar` from the source: a full-width band at the top or bottom
edge, optionally carrying text. -/
structure WatermarkBar where
  position : BarPosition
  thickness : ℚ
  thicknessUnit : ThicknessUnit
  color : String
  text : Option String := none
  textColor : Option String := none
  textAlign : Option TextAlign := none
  textSize : Option ℚ := none
  textPadding : Option ℚ := none
  deriving DecidableEq, Repr

/-- The image source of an image watermark:
`string | HTMLImageElement | HTMLCanvasElement`.  An `HTMLImageElement`
carries whether it is already `complete` with `naturalWidth > 0`. -/
inductive ImageSource where
  | url (u : String)
  | element (complete : Bool) (naturalWidthPos : Bool)
  | canvasElem
  deriving DecidableEq, Repr

/-- Watermark configuration `WatermarkOptions` from the source. -/
structure WatermarkOptions where
  text : Option String := none
  position : Option WatermarkPosition := none
  fontSize : Option ℚ := none
  color : Option String := none
  image : Option ImageSource := none
  imagePosition : Option WatermarkPosition := none
  imageWidth : Option ℚ := none
  imageHeight : Option ℚ := none
  imageOpacity : Option ℚ := none
  bars : Option (List WatermarkBar) := none
  deriving DecidableEq, Repr

/-! ## Watermark geometry

The pure coordinate computations of `drawTextWatermark`,
`drawWatermarkBars` and `drawImageWatermark`.  Text width depends on the
font size set just before `measureText`, so the measuring function takes
the font size as an argument. -/

/-- The `(x, y)` passed to `fillText` by `drawTextWatermark`, given target
dimensions `W × H` and a text-measuring function.  Follows the source:
`fontSize` defaults to 16, `position` to bottom-right (also the
`switch` default), `padding = 10`; a pixel-pair position is used verbatim. -/
def textWatermarkXY (measure : ℚ → String → ℚ) (W H : ℚ)
    (wm : WatermarkOptions) (text : String) : ℚ × ℚ :=
  let fontSize := wm.fontSize.getD 16
  let position := wm.position.getD .bottomRight
  let tw := measure fontSize text
  let padding : ℚ := 10
  match position with
  | .pixel x y => (x, y)
  | .topLeft => (padding, padding + fontSize)
  | .topRight => (W - tw - padding, padding + fontSize)
  | .bottomLeft => (padding, H - padding)
  | .bottomRight => (W - tw - padding, H - padding)

/-- Bar thickness computed by `drawWatermarkBars`: percent of the target
height for a top/bottom bar (the `else` branch of the source using the width is
unreachable, `position` being typed top-or-bottom), else the raw
pixel value. -/
def barThickness (_W H : ℚ) (bar : WatermarkBar) : ℚ :=
  match bar.thicknessUnit with
  | .percent =>
    match bar.position with
    | .top => H * bar.thickness / 100
    | .bottom => H * bar.thickness / 100
  | .px => bar.thickness

/-- The `fillRect` rectangle `(x, y, w, h)` drawn for a bar. -/
def barRect (W H : ℚ) (bar : WatermarkBar) : ℚ × ℚ × ℚ × ℚ :=
  let bt := barThickness W H bar
  match bar.position with
  | .top => (0, 0, W, bt)
  | .bottom => (0, H - bt, W, bt)

/-- The `(x, y)` of the text drawn inside a bar, when `bar.text` is truthy:
defaults `textAlign = center`, `textSize = 16`, `textPadding = 10`. -/
def barTextXY (measure : ℚ → String → ℚ) (W H : ℚ)
    (bar : WatermarkBar) (text : String) : ℚ × ℚ :=
  let textAlign := bar.textAlign.getD .center
  let textSize := bar.textSize.getD 16
  let textPadding := bar.textPadding.getD 10
  let bt := barThickness W H bar
  let textY :=
    match bar.position with
    | .top => bt / 2
    | .bottom => H - bt / 2
  let tw := measure textSize text
  let textX :=
    match textAlign with
    | .left => textPadding
    | .right => W - tw - textPadding
    | .center => (W - tw) / 2
  (textX, textY)

/-- The draw dimensions `(drawWidth, drawHeight)` computed by
`drawImageWatermark` from the natural size of the resolved bitmap and the
optional `imageWidth` / `imageHeight`.  The source tests the options with
JS truthiness (`if (imageWidth && imageHeight)` ...), so a present `0`
behaves like an absent value. -/
def imageDrawDims (natW natH : ℚ) (imageWidth imageHeight : Option ℚ) :
    ℚ × ℚ :=
  if truthyNum imageWidth && truthyNum imageHeight then
    (imageWidth.getD 0, imageHeight.getD 0)
  else if truthyNum imageWidth then
    let iw := imageWidth.getD 0
    (iw, iw * (natH / natW))
  else if truthyNum imageHeight then
    let ih := imageHeight.getD 0
    (ih * (natW / natH), ih)
  else
    (natW, natH)

/-- The `(x, y)` where `drawImageWatermark` places the image box of size
`drawWidth × drawHeight`: a pixel pair verbatim, else a corner with
`padding = 10` measured against the image box (default bottom-right,
also the `switch` default). -/
def imageWatermarkXY (W H drawWidth drawHeight : ℚ)
    (imagePosition : Option WatermarkPosition) : ℚ × ℚ :=
  let position := imagePosition.getD .bottomRight
  let padding : ℚ := 10
  match position with
  | .pixel x y => (x, y)
  | .topLeft => (padding, padding)
  | .topRight => (W - drawWidth - padding, padding)
  | .bottomLeft => (padding, H - drawHeight - padding)
  | .bottomRight => (W - drawWidth - padding, H - drawHeight - padding)

/-! ## The composite pass

`drawWatermark` performs, in order: one source copy, the bars (in array
order, each a filled rectangle plus optional text), the text watermark if
truthy, and the image watermark if configured and resolved.  We reify the
pass as a list of draw operations and give it a pixel-grid semantics. -/

/-- One canvas drawing operation issued by the composite pass. -/
inductive DrawOp where
  | copySource
  | fillRect (x y w h : ℚ) (color : String)
  | fillText (text : String) (x y fontSize : ℚ) (color : String)
  | drawImage (x y w h opacity : ℚ)
  deriving DecidableEq, Repr

/-- The operations issued for one bar by `drawWatermarkBars`: the filled
rectangle, then the bar text when `bar.text` is truthy (defaults
`textColor` a white hex literal, `textSize = 16`). -/
def barOps (measure : ℚ → String → ℚ) (W H : ℚ) (bar : WatermarkBar) :
    List DrawOp :=
  let (rx, ry, rw, rh) := barRect W H bar
  let rect := DrawOp.fillRect rx ry rw rh bar.color
  match bar.text with
  | none => [rect]
  | some t =>
    if t = "" then [rect]
    else
      let (tx, ty) := barTextXY measure W H bar t
      [rect, DrawOp.fillText t tx ty (bar.textSize.getD 16)
        (bar.textColor.getD "#ffffff")]

/-- The operations of `drawTextWatermark`: one `fillText` when the text is
truthy (the default color is a translucent white rgba literal). -/
def textOps (measure : ℚ → String → ℚ) (W H : ℚ)
    (wm : WatermarkOptions) : List DrawOp :=
  match wm.text with
  | none => []
  | some t =>
    if t = "" then []
    else
      let (x, y) := textWatermarkXY measure W H wm t
      [DrawOp.fillText t x y (wm.fontSize.getD 16)
        (wm.color.getD "rgba(255, 255, 255, 0.7)")]

/-- The operation of `drawImageWatermark` on a resolved bitmap of natural
size `natW × natH` (default `imageOpacity = 1`). -/
def imageOp (W H natW natH : ℚ) (wm : WatermarkOptions) : DrawOp :=
  let (dw, dh) := imageDrawDims natW natH wm.imageWidth wm.imageHeight
  let (x, y) := imageWatermarkXY W H dw dh wm.imagePosition
  DrawOp.drawImage x y dw dh (wm.imageOpacity.getD 1)

/-- The full operation list of one `drawWatermark` pass: source copy, then
bars (the source guards on `bars && bars.length > 0`), then the text
watermark, then the image watermark when `watermark.image` is set and the
bitmap resolved. -/
def compositeOps (measure : ℚ → String → ℚ) (W H natW natH : ℚ)
    (wm : WatermarkOptions) (loaded : Bool) : List DrawOp :=
  [DrawOp.copySource]
  ++ (match wm.bars with
      | none => []
      | some bs =>
        if bs.length > 0 then (bs.map (barOps measure W H)).flatten else [])
  ++ textOps measure W H wm
  ++ (if wm.image.isSome && loaded then [imageOp W H natW natH wm] else [])

/-! ## Pixel-grid semantics

Pixels are integer points, colors an abstract value type; the environment
interprets a fill color over an old pixel, and glyph/bitmap coverage for
`fillText` / `drawImage`.  Every operation is pointwise: the new value at
a pixel depends only on the parameters of the operation and the old value at
that same pixel, which is exactly what the canvas 2D primitives give. -/

abbrev Color := ℕ

abbrev Grid := ℤ × ℤ → Color

/-- Is the integer pixel `p` inside the rational rectangle
`(x, y, w, h)`? -/
def inRect (x y w h : ℚ) (p : ℤ × ℤ) : Prop :=
  x ≤ (p.1 : ℚ) ∧ (p.1 : ℚ) < x + w ∧ y ≤ (p.2 : ℚ) ∧ (p.2 : ℚ) < y + h

instance (x y w h : ℚ) (p : ℤ × ℤ) : Decidable (inRect x y w h p) := by
  unfold inRect; infer_instance

/-- How the host rasterizer interprets the operations: text measurement,
solid-fill compositing, glyph coverage and bitmap sampling. -/
structure RenderEnv where
  measure : ℚ → String → ℚ
  fillPix : String → Color → Color
  textPix : String → ℚ → ℚ → ℚ → String → ℤ × ℤ → Color → Color
  imagePix : ℚ → ℚ → ℚ → ℚ → ℚ → ℤ × ℤ → Color → Color

/-- Apply one draw operation to the target grid.  `copySource` writes the
source pixels over the rectangle `[0, srcW) × [0, srcH)` at the origin
(`drawImage(sourceCanvas, 0, 0)`); fills composite the color over the old
pixel inside the rectangle; text and image drawing are pointwise through
the environment. -/
def applyOp (env : RenderEnv) (srcW srcH : ℕ) (src : Grid) (g : Grid)
    (op : DrawOp) : Grid :=
  match op with
  | .copySource => fun p =>
    if 0 ≤ p.1 ∧ p.1 < (srcW : ℤ) ∧ 0 ≤ p.2 ∧ p.2 < (srcH : ℤ) then src p
    else g p
  | .fillRect x y w h c => fun p =>
    if inRect x y w h p then env.fillPix c (g p) else g p
  | .fillText t x y fs c => fun p => env.textPix t x y fs c p (g p)
  | .drawImage x y w h o => fun p => env.imagePix x y w h o p (g p)

/-- One full composite pass over the target grid: fold the operation list
of `drawWatermark`.  `srcW × srcH` are the source-canvas dimensions,
`W × H` the watermark-canvas (target) dimensions, `natW × natH` the
natural size of the resolved overlay bitmap. -/
def composite (env : RenderEnv) (srcW srcH W H : ℕ) (natW natH : ℚ)
    (src : Grid) (wm : WatermarkOptions) (loaded : Bool) (g : Grid) :
    Grid :=
  (compositeOps env.measure (W : ℚ) (H : ℚ) natW natH wm loaded).foldl
    (applyOp env srcW srcH src) g

/-- Two grids agree on every pixel of the `W × H` target. -/
def sameOn (W H : ℕ) (g1 g2 : Grid) : Prop :=
  ∀ p : ℤ × ℤ, 0 ≤ p.1 → p.1 < (W : ℤ) → 0 ≤ p.2 → p.2 < (H : ℤ) →
    g1 p = g2 p

/-! ## Overlay image loader

`loadWatermarkImage` never rejects: each branch resolves, recording
whether the image became available and whether a warning was logged.  The
load outcome (network/decode success or failure) is an input of the
model. -/

/-- Whether the underlying image load/decode succeeds. -/
inductive LoadOutcome where
  | success
  | failure
  deriving DecidableEq, Repr

/-- Observable result of `loadWatermarkImage`: the returned promise
resolves (it is never rejected), the `watermarkImage` /
`watermarkImageLoaded` fields are set iff `loaded`, and `warned` records a
`console.warn`. -/
structure LoadResult where
  resolved : Bool
  loaded : Bool
  warned : Bool
  deriving DecidableEq, Repr

/-- The loader `loadWatermarkImage` from the source.  An already-complete
`HTMLImageElement` with positive natural width is used directly; a pending
element waits on `onload`/`onerror` (warning on error); a canvas element
is snapshotted to a data URL whose decode sets the flag with no error
handler (so no warning path exists there); a URL string fetches
cross-origin and warns-and-resolves on error. -/
def loadWatermarkImage (src : ImageSource) (outcome : LoadOutcome) :
    LoadResult :=
  match src with
  | .element true true => { resolved := true, loaded := true, warned := false }
  | .element _ _ =>
    match outcome with
    | .success => { resolved := true, loaded := true, warned := false }
    | .failure => { resolved := true, loaded := false, warned := true }
  | .canvasElem =>
    match outcome with
    | .success => { resolved := true, loaded := true, warned := false }
    | .failure => { resolved := true, loaded := false, warned := false }
  | .url _ =>
    match outcome with
    | .success => { resolved := true, loaded := true, warned := false }
    | .failure => { resolved := true, loaded := false, warned := true }

/-! ## Capture-session state machine

The mutable fields of the `CanvasRecorder` instance, the constructor,
`start` and `stop`.  External effects (stream capture, `MediaRecorder`
creation, composite passes, animation-frame scheduling) are recorded as an
event list; host-supplied values (`Date.now()`, fresh ids, whether
`captureStream` throws) come from an environment record. -/

/-- A canvas element: an identity plus pixel dimensions. -/
structure Canvas where
  id : ℕ
  width : ℕ
  height : ℕ
  deriving DecidableEq, Repr

/-- States of the host recorder used by the source. -/
inductive RecState where
  | recording
  | inactive
  deriving DecidableEq, Repr

/-- The `MediaRecorder` held by the session: its stream and its state. -/
structure MediaRec where
  streamId : ℕ
  recState : RecState
  deriving DecidableEq, Repr

/-- Constructor input `RecorderOptions`. -/
structure RecorderOptions where
  canvas : Option Canvas := none
  externalCanvas : Option Canvas := none
  watermark : Option WatermarkOptions := none
  fps : Option ℚ := none
  videoBitsPerSecond : Option ℚ := none
  deriving DecidableEq, Repr

/-- Effective options after the spread in the constructor,
`{ fps: 30, videoBitsPerSecond: 5000000, ...options }`: omitted options
take the defaults. -/
structure EffOptions where
  fps : ℚ
  videoBitsPerSecond : ℚ
  watermark : Option WatermarkOptions
  deriving DecidableEq, Repr

/-- The mutable instance fields of `CanvasRecorder` (chunks are abstract
ids; `watermarkImageLoaded` stands for the
`watermarkImage`/`watermarkImageLoaded` pair, set together). -/
structure RecorderState where
  canvas : Option Canvas
  externalCanvas : Option Canvas
  watermarkCanvas : Option Canvas
  mediaRecorder : Option MediaRec
  recordedChunks : List ℕ
  startTime : ℤ
  animationFrameId : Option ℕ
  watermarkImageLoaded : Bool
  options : EffOptions
  deriving DecidableEq, Repr

/-- Source-canvas selection, `this.externalCanvas || this.canvas!` (the non-null
assertion is modelled with a junk default; the constructor guarantees one
of the two is set). -/
def getSourceCanvas (s : RecorderState) : Canvas :=
  match s.externalCanvas with
  | some c => c
  | none => s.canvas.getD { id := 0, width := 0, height := 0 }

/-- Host-supplied values consumed by `setupWatermark`: the id of the
canvas-element creation and the image-load outcome. -/
structure SetupEnv where
  newCanvasId : ℕ
  load : LoadOutcome
  deriving DecidableEq, Repr

/-- Setup of the watermark overlay: allocate the hidden canvas sized exactly
to the source canvas, then load the watermark image if one is
configured. -/
def setupWatermark (env : SetupEnv) (s : RecorderState) : RecorderState :=
  match s.options.watermark with
  | none => s
  | some wm =>
    let src := getSourceCanvas s
    let s1 := { s with
      watermarkCanvas :=
        some { id := env.newCanvasId, width := src.width, height := src.height } }
    match wm.image with
    | none => s1
    | some img =>
      { s1 with watermarkImageLoaded := (loadWatermarkImage img env.load).loaded }

/-- The `CanvasRecorder` constructor: apply option defaults, require one
of `canvas` / `externalCanvas` (`externalCanvas` wins when both are
given), and run `setupWatermark` when a watermark is configured (its
synchronous part allocates the canvas; the un-awaited image load settles
the loaded flag). -/
def mkCanvasRecorder (env : SetupEnv) (opts : RecorderOptions) :
    Except String RecorderState :=
  let eff : EffOptions :=
    { fps := opts.fps.getD 30
      videoBitsPerSecond := opts.videoBitsPerSecond.getD 5000000
      watermark := opts.watermark }
  let base : RecorderState :=
    { canvas := none, externalCanvas := none, watermarkCanvas := none
      mediaRecorder := none, recordedChunks := [], startTime := 0
      animationFrameId := none, watermarkImageLoaded := false, options := eff }
  match opts.externalCanvas, opts.canvas with
  | some ec, _ =>
    let s := { base with externalCanvas := some ec }
    .ok (if opts.watermark.isSome then setupWatermark env s else s)
  | none, some c =>
    let s := { base with canvas := some c }
    .ok (if opts.watermark.isSome then setupWatermark env s else s)
  | none, none => .error "Either canvas or externalCanvas must be provided"

/-- Externally observable side effects of `start`/`stop`. -/
inductive Event where
  | compositePass
  | streamCaptured (canvasId : ℕ) (fps : ℚ)
  | recorderCreated (streamId : ℕ) (mimeType : String) (videoBitsPerSecond : ℚ)
  | recorderStarted (timeslice : ℕ)
  | loopScheduled (rafId : ℕ)
  | frameCancelled (rafId : ℕ)
  | recorderStopRequested
  | tracksStopped (streamId : ℕ)
  deriving DecidableEq, Repr

/-- Mime-type selection: the first supported entry of the descending
preference list, else the generic webm type. -/
def getSupportedMimeType (supported : List String) : String :=
  let types := ["video/webm;codecs=vp9", "video/webm;codecs=vp8",
    "video/webm", "video/mp4"]
  match types.find? (fun t => supported.contains t) with
  | some t => t
  | none => "video/webm"

/-- Host-supplied values consumed by `start`: the clock, whether
`captureStream` succeeds, the fresh stream id, the mime types the host
`MediaRecorder.isTypeSupported` accepts, the `requestAnimationFrame`
handle, and the setup environment for a late `setupWatermark`. -/
structure StartEnv where
  now : ℤ
  captureOk : Bool
  streamId : ℕ
  supported : List String
  rafId : ℕ
  setup : SetupEnv
  deriving DecidableEq, Repr

/-- The ways `start` can reject. -/
inductive StartError where
  /-- The capture call threw; the exception is rethrown by the rejected
  promise (its message comes from the host, hence opaque here). -/
  | captureThrew
  deriving DecidableEq, Repr

/-- The `start()` method from the source, returning the final instance state, the
emitted events, and the rejection if any.  In order: clear the chunk list
and take the start timestamp; run `setupWatermark` if a watermark is
configured but its canvas is missing; perform one immediate composite
pass when a watermark canvas exists; capture the stream from the watermark
canvas (falling back to the source canvas); create and start the
`MediaRecorder` with `start(100)`; if watermarking, run the first
`updateWatermarkLoop` tick (which sees `isRecording()` true, composites,
and schedules the next frame).  There is no try/catch: when
`captureStream` throws, the promise rejects with the mutations so far
retained. -/
def start (env : StartEnv) (s : RecorderState) :
    RecorderState × List Event × Option StartError :=
  let s1 := { s with recordedChunks := [], startTime := env.now }
  let s2 :=
    if s1.options.watermark.isSome ∧ s1.watermarkCanvas = none then
      setupWatermark env.setup s1
    else s1
  let sourceCanvas := getSourceCanvas s2
  let canvasToRecord := s2.watermarkCanvas.getD sourceCanvas
  let ev1 := if s2.watermarkCanvas.isSome then [Event.compositePass] else []
  if env.captureOk then
    let mime := getSupportedMimeType env.supported
    let ev2 := ev1 ++
      [Event.streamCaptured canvasToRecord.id s2.options.fps,
       Event.recorderCreated env.streamId mime s2.options.videoBitsPerSecond,
       Event.recorderStarted 100]
    let s3 := { s2 with
      mediaRecorder := some { streamId := env.streamId, recState := .recording } }
    if s3.watermarkCanvas.isSome then
      ({ s3 with animationFrameId := some env.rafId },
        ev2 ++ [Event.compositePass, Event.loopScheduled env.rafId], none)
    else
      (s3, ev2, none)
  else
    (s2, ev1, some .captureThrew)

/-- Recording test: whether the held recorder state is recording. -/
def isRecording (s : RecorderState) : Bool :=
  match s.mediaRecorder with
  | some r => r.recState = .recording
  | none => false

/-- Host clock consumed by `stop` (for the duration computation). -/
structure StopEnv where
  now : ℤ
  deriving DecidableEq, Repr

/-- The settled value of the promise returned by `stop()`. -/
inductive StopResult where
  /-- Rejected with the no-active-recording error. -/
  | noActive
  /-- Resolved with the assembled `RecordingData`: the accumulated chunks
  and `duration = Date.now() - startTime`. -/
  | data (chunks : List ℕ) (duration : ℤ)
  deriving DecidableEq, Repr

/-- The `stop()` method from the source: with no recorder it rejects at once,
touching nothing; otherwise it cancels any scheduled animation frame,
requests recorder stop (on whose completion the artifact is assembled),
and stops all stream tracks. -/
def stop (env : StopEnv) (s : RecorderState) :
    RecorderState × List Event × StopResult :=
  match s.mediaRecorder with
  | none => (s, [], .noActive)
  | some r =>
    let (s1, ev1) :=
      match s.animationFrameId with
      | some fid => ({ s with animationFrameId := none }, [Event.frameCancelled fid])
      | none => (s, [])
    let s2 := { s1 with mediaRecorder := some { r with recState := .inactive } }
    (s2, ev1 ++ [Event.recorderStopRequested, Event.tracksStopped r.streamId],
      .data s.recordedChunks (env.now - s.startTime))

/-! ## Helper lemmas -/

/-- Every draw operation is pointwise: grids agreeing at a pixel still
agree there after the operation. -/
lemma applyOp_point (env : RenderEnv) (srcW srcH : ℕ) (src : Grid)
    (op : DrawOp) (g1 g2 : Grid) (p : ℤ × ℤ) (h : g1 p = g2 p) :
    applyOp env srcW srcH src g1 op p = applyOp env srcW srcH src g2 op p := by
  cases op <;> simp only [applyOp, h]

/-- Folding the same operation list over grids agreeing at a pixel keeps
them agreeing there. -/
lemma foldl_applyOp_point (env : RenderEnv) (srcW srcH : ℕ) (src : Grid)
    (ops : List DrawOp) :
    ∀ (g1 g2 : Grid) (p : ℤ × ℤ), g1 p = g2 p →
      (ops.foldl (applyOp env srcW srcH src) g1) p =
        (ops.foldl (applyOp env srcW srcH src) g2) p := by
  induction ops with
  | nil => intro g1 g2 p h; simpa using h
  | cons op rest ih =>
    intro g1 g2 p h
    simpa using ih _ _ p (applyOp_point env srcW srcH src op g1 g2 p h)

/-- When the target matches the source dimensions, the initial source copy
overwrites every target pixel, so the whole pass does not depend on the
prior content of the target. -/
lemma composite_target_independent (env : RenderEnv) (srcW srcH W H : ℕ)
    (natW natH : ℚ) (src : Grid) (wm : WatermarkOptions) (loaded : Bool)
    (hW : srcW = W) (hH : srcH = H) (g1 g2 : Grid) :
    sameOn W H (composite env srcW srcH W H natW natH src wm loaded g1)
      (composite env srcW srcH W H natW natH src wm loaded g2) := by
  intro p h1 h2 h3 h4
  unfold composite compositeOps
  simp only [List.cons_append, List.nil_append, List.foldl_cons]
  apply foldl_applyOp_point
  subst hW hH
  simp only [applyOp]
  rw [if_pos ⟨h1, h2, h3, h4⟩, if_pos ⟨h1, h2, h3, h4⟩]

/-- The operation list of one pass, with the redundant nonempty-bars guard
folded away: source copy first, then the bars in array order, then the
text watermark, then the image watermark when configured and resolved. -/
lemma compositeOps_eq (measure : ℚ → String → ℚ) (W H nW nH : ℚ)
    (wm : WatermarkOptions) (loaded : Bool) :
    compositeOps measure W H nW nH wm loaded =
      DrawOp.copySource ::
        (((wm.bars.getD []).map (barOps measure W H)).flatten ++
          (textOps measure W H wm ++
            (if wm.image.isSome && loaded then [imageOp W H nW nH wm]
             else []))) := by
  unfold compositeOps
  cases hbs : wm.bars with
  | none => simp
  | some bs => cases bs with
    | nil => simp
    | cons b rest => simp

/-! ## Claim theorems -/

/-- C5: for a text watermark with a corner position and font size `f` on a
`W × H` surface with measured text width `tw = measure f t`, the draw
coordinates are top-left `(10, 10+f)`, top-right `(W-tw-10, 10+f)`,
bottom-left `(10, H-10)`, bottom-right `(W-tw-10, H-10)` — so the
right/bottom edge of the text sits exactly `padding = 10` pixels inside
the corresponding edge — and a pixel-pair position is used verbatim. -/
theorem text_watermark_corner_coords (measure : ℚ → String → ℚ)
    (W H f px py : ℚ) (t : String) (wm : WatermarkOptions) :
    textWatermarkXY measure W H
        { wm with position := some .topLeft, fontSize := some f } t =
      (10, 10 + f) ∧
    textWatermarkXY measure W H
        { wm with position := some .topRight, fontSize := some f } t =
      (W - measure f t - 10, 10 + f) ∧
    textWatermarkXY measure W H
        { wm with position := some .bottomLeft, fontSize := some f } t =
      (10, H - 10) ∧
    textWatermarkXY measure W H
        { wm with position := some .bottomRight, fontSize := some f } t =
      (W - measure f t - 10, H - 10) ∧
    textWatermarkXY measure W H
        { wm with position := some (.pixel px py), fontSize := some f } t =
      (px, py) :=
  ⟨rfl, rfl, rfl, rfl, rfl⟩

/-- C6: a bar with percent thickness on a top or bottom edge gets
thickness `(thickness/100) * H` exactly (in particular 10% of a 1000px
surface is 100px); a pixel thickness is used verbatim; the filled
rectangle spans the full surface width at the chosen edge. -/
theorem bar_thickness_and_rect (W H t : ℚ) (bar : WatermarkBar) :
    barThickness W H
        { bar with thickness := t, thicknessUnit := .percent, position := .top } =
      t / 100 * H ∧
    barThickness W H
        { bar with thickness := t, thicknessUnit := .percent, position := .bottom } =
      t / 100 * H ∧
    barThickness 500 1000
        { position := .top, thickness := 10, thicknessUnit := .percent, color := "black" } =
      100 ∧
    barThickness W H { bar with thickness := t, thicknessUnit := .px } = t ∧
    barRect W H { bar with position := .top } =
      (0, 0, W, barThickness W H { bar with position := .top }) ∧
    barRect W H { bar with position := .bottom } =
      (0, H - barThickness W H { bar with position := .bottom }, W,
        barThickness W H { bar with position := .bottom }) := by
  refine ⟨?_, ?_, ?_, rfl, rfl, rfl⟩
  · simp only [barThickness]; ring
  · simp only [barThickness]; ring
  · norm_num [barThickness]

/-- C7 (amended): the image draw dimensions use both `imageWidth` and
`imageHeight` verbatim when both are given and nonzero; with only
`imageWidth` truthy the height is `imageWidth * (natH/natW)` (a 200×100
bitmap with `imageWidth = 100` draws at height 50); with only
`imageHeight` truthy the width is `imageHeight * (natW/natH)`; otherwise
the natural size is used — and a given value of `0` is treated exactly
like an absent one (JS truthiness). -/
theorem image_draw_dims_spec (natW natH w h : ℚ) (hw : w ≠ 0)
    (hh : h ≠ 0) :
    imageDrawDims natW natH (some w) (some h) = (w, h) ∧
    imageDrawDims natW natH (some w) none = (w, w * (natH / natW)) ∧
    imageDrawDims natW natH none (some h) = (h * (natW / natH), h) ∧
    imageDrawDims natW natH none none = (natW, natH) ∧
    imageDrawDims natW natH (some 0) (some h) =
      imageDrawDims natW natH none (some h) ∧
    imageDrawDims natW natH (some w) (some 0) =
      imageDrawDims natW natH (some w) none ∧
    imageDrawDims 200 100 (some 100) none = (100, 50) := by
  refine ⟨?_, ?_, ?_, ?_, ?_, ?_, ?_⟩ <;>
    simp [imageDrawDims, truthyNum, hw, hh] <;> norm_num

/-- C7 witness: the amended statement applied at a 200×100 bitmap with
`imageWidth = 100`, `imageHeight = 30`. -/
theorem image_draw_dims_spec_witness :
    imageDrawDims 200 100 (some 100) (some 30) = (100, 30) :=
  (image_draw_dims_spec 200 100 100 30 (by norm_num) (by norm_num)).1

/-- C7 counterexample: for a 200×100 bitmap with `imageWidth = 0` and
`imageHeight = 50` both given, the code does not use them verbatim
(`(0, 50)`): the truthiness test skips to the height-only branch and
yields `(100, 50)`. -/
theorem image_dims_zero_width_cex :
    imageDrawDims 200 100 (some 0) (some 50) = (100, 50) ∧
    imageDrawDims 200 100 (some 0) (some 50) ≠ ((0 : ℚ), (50 : ℚ)) := by
  constructor
  · norm_num [imageDrawDims, truthyNum]
  · norm_num [imageDrawDims, truthyNum]

/-- C8: every composite pass issues, in this fixed order: the source copy
first, then each bar of `spec.bars` in array order, then the text
watermark if present, then the image watermark if configured and
resolved — so bars render below both point watermarks and text below the
image. -/
theorem compositeOps_order (measure : ℚ → String → ℚ) (W H nW nH : ℚ)
    (wm : WatermarkOptions) (loaded : Bool) :
    compositeOps measure W H nW nH wm loaded =
      DrawOp.copySource ::
        (((wm.bars.getD []).map (barOps measure W H)).flatten ++
          (textOps measure W H wm ++
            (if wm.image.isSome && loaded then [imageOp W H nW nH wm]
             else []))) :=
  compositeOps_eq measure W H nW nH wm loaded

/-- C9: with the compositing target sized to the source surface (as
`setupWatermark` guarantees), the composite pass is idempotent per frame:
a second pass with the same source and spec leaves every target pixel as
the first pass did — no accumulation of overlay artifacts. -/
theorem composite_idempotent (env : RenderEnv) (srcW srcH W H : ℕ)
    (natW natH : ℚ) (src : Grid) (wm : WatermarkOptions) (loaded : Bool)
    (g : Grid) (hW : srcW = W) (hH : srcH = H) :
    sameOn W H (composite env srcW srcH W H natW natH src wm loaded g)
      (composite env srcW srcH W H natW natH src wm loaded
        (composite env srcW srcH W H natW natH src wm loaded g)) :=
  composite_target_independent env srcW srcH W H natW natH src wm loaded
    hW hH g (composite env srcW srcH W H natW natH src wm loaded g)

/-- C9 witness: idempotence at a concrete 2×2 surface, environment, spec
and target. -/
theorem composite_idempotent_witness :
    sameOn 2 2
      (composite
        ⟨fun _ _ => 5, fun _ c => c + 1, fun _ _ _ _ _ _ c => c + 2,
          fun _ _ _ _ _ _ c => c + 3⟩
        2 2 2 2 4 4 (fun _ => 7)
        { text := some "w",
          bars := some
            [{ position := .top, thickness := 1, thicknessUnit := .px, color := "red" }],
          image := some (.url "u") }
        true (fun _ => 0))
      (composite
        ⟨fun _ _ => 5, fun _ c => c + 1, fun _ _ _ _ _ _ c => c + 2,
          fun _ _ _ _ _ _ c => c + 3⟩
        2 2 2 2 4 4 (fun _ => 7)
        { text := some "w",
          bars := some
            [{ position := .top, thickness := 1, thicknessUnit := .px, color := "red" }],
          image := some (.url "u") }
        true
        (composite
          ⟨fun _ _ => 5, fun _ c => c + 1, fun _ _ _ _ _ _ c => c + 2,
            fun _ _ _ _ _ _ c => c + 3⟩
          2 2 2 2 4 4 (fun _ => 7)
          { text := some "w",
            bars := some
              [{ position := .top, thickness := 1, thicknessUnit := .px, color := "red" }],
            image := some (.url "u") }
          true (fun _ => 0))) :=
  composite_idempotent _ 2 2 2 2 4 4 _ _ true _ rfl rfl

/-- Field preservation: `setupWatermark` touches only `watermarkCanvas` and
`watermarkImageLoaded`: all other instance fields are preserved. -/
lemma setupWatermark_fields (env : SetupEnv) (s : RecorderState) :
    (setupWatermark env s).canvas = s.canvas ∧
    (setupWatermark env s).externalCanvas = s.externalCanvas ∧
    (setupWatermark env s).mediaRecorder = s.mediaRecorder ∧
    (setupWatermark env s).recordedChunks = s.recordedChunks ∧
    (setupWatermark env s).startTime = s.startTime ∧
    (setupWatermark env s).animationFrameId = s.animationFrameId ∧
    (setupWatermark env s).options = s.options := by
  cases hw : s.options.watermark with
  | none => simp [setupWatermark, hw]
  | some w => cases hi : w.image <;> simp [setupWatermark, hw, hi]

/-- With a watermark configured, `setupWatermark` allocates the hidden
canvas. -/
lemma setupWatermark_watermarkCanvas (env : SetupEnv) (s : RecorderState)
    (h : s.options.watermark.isSome = true) :
    (setupWatermark env s).watermarkCanvas =
      some { id := env.newCanvasId, width := (getSourceCanvas s).width,
             height := (getSourceCanvas s).height } := by
  cases hw : s.options.watermark with
  | none => rw [hw] at h; simp at h
  | some w => cases hi : w.image <;> simp [setupWatermark, hw, hi]

/-- Running `setupWatermark` does not change which canvas is the source. -/
lemma getSourceCanvas_setupWatermark (env : SetupEnv) (s : RecorderState) :
    getSourceCanvas (setupWatermark env s) = getSourceCanvas s := by
  simp only [getSourceCanvas, (setupWatermark_fields env s).1,
    (setupWatermark_fields env s).2.1]

/-- C10 (implicit): constructing a `CanvasRecorder` with neither `canvas`
nor `externalCanvas` throws; with at least one it succeeds and records the
given canvas as the source surface (`externalCanvas` winning when both are
given), with defaults `fps = 30` and `videoBitsPerSecond = 5000000`
applied for omitted options. -/
theorem mkCanvasRecorder_spec (env : SetupEnv)
    (wm : Option WatermarkOptions) (fps vbps : Option ℚ) (c ec : Canvas) :
    mkCanvasRecorder env
        { watermark := wm, fps := fps, videoBitsPerSecond := vbps } =
      .error "Either canvas or externalCanvas must be provided" ∧
    (∃ s, mkCanvasRecorder env
        { canvas := some c, watermark := wm, fps := fps,
          videoBitsPerSecond := vbps } = .ok s ∧
      getSourceCanvas s = c ∧ s.options.fps = fps.getD 30 ∧
      s.options.videoBitsPerSecond = vbps.getD 5000000) ∧
    (∃ s, mkCanvasRecorder env
        { externalCanvas := some ec, watermark := wm, fps := fps,
          videoBitsPerSecond := vbps } = .ok s ∧
      getSourceCanvas s = ec ∧ s.options.fps = fps.getD 30 ∧
      s.options.videoBitsPerSecond = vbps.getD 5000000) ∧
    (∃ s, mkCanvasRecorder env
        { canvas := some c, externalCanvas := some ec, watermark := wm,
          fps := fps, videoBitsPerSecond := vbps } = .ok s ∧
      getSourceCanvas s = ec) := by
  refine ⟨rfl, ⟨_, rfl, ?_, ?_, ?_⟩, ⟨_, rfl, ?_, ?_, ?_⟩, ⟨_, rfl, ?_⟩⟩ <;>
    cases wm <;>
    simp [getSourceCanvas, (setupWatermark_fields _ _).1,
      (setupWatermark_fields _ _).2.1, (setupWatermark_fields _ _).2.2.2.2.2.2]

/-- C1 (amended): a second `start()` while already `Recording` is not
guarded: it succeeds, opens a second underlying capture stream, creates
and starts a new `MediaRecorder` replacing the first, clears the
accumulated chunk list, and resets the start timestamp. -/
theorem start_double_reissues_capture (env : StartEnv) (s : RecorderState)
    (r : MediaRec) (h1 : s.mediaRecorder = some r)
    (h2 : r.recState = .recording) (h3 : env.captureOk = true) :
    isRecording s = true ∧
    (start env s).2.2 = none ∧
    (∃ cid f, Event.streamCaptured cid f ∈ (start env s).2.1) ∧
    (∃ sid m b, Event.recorderCreated sid m b ∈ (start env s).2.1) ∧
    (start env s).1.mediaRecorder =
      some { streamId := env.streamId, recState := .recording } ∧
    (start env s).1.recordedChunks = [] ∧
    (start env s).1.startTime = env.now := by
  have hrec : isRecording s = true := by simp [isRecording, h1, h2]
  refine ⟨hrec, ?_, ?_, ?_, ?_, ?_, ?_⟩ <;>
    simp only [start, h3, if_true] <;>
    split <;> split <;>
    simp [(setupWatermark_fields _ _).2.2.2.1,
      (setupWatermark_fields _ _).2.2.2.2.1]

/-- C1 counterexample: from a concrete `Recording` state, a second
`start()` emits a second `captureStream` call and changes the observable
session state. -/
theorem start_double_not_noop_cex :
    Event.streamCaptured 1 30 ∈
      (start
        { now := 200, captureOk := true, streamId := 8,
          supported := ["video/webm"], rafId := 3,
          setup := { newCanvasId := 9, load := .success } }
        { canvas := some ⟨1, 640, 480⟩, externalCanvas := none,
          watermarkCanvas := none, mediaRecorder := some ⟨7, .recording⟩,
          recordedChunks := [5], startTime := 100, animationFrameId := none,
          watermarkImageLoaded := false,
          options :=
            { fps := 30, videoBitsPerSecond := 5000000, watermark := none } }).2.1 ∧
    (start
        { now := 200, captureOk := true, streamId := 8,
          supported := ["video/webm"], rafId := 3,
          setup := { newCanvasId := 9, load := .success } }
        { canvas := some ⟨1, 640, 480⟩, externalCanvas := none,
          watermarkCanvas := none, mediaRecorder := some ⟨7, .recording⟩,
          recordedChunks := [5], startTime := 100, animationFrameId := none,
          watermarkImageLoaded := false,
          options :=
            { fps := 30, videoBitsPerSecond := 5000000, watermark := none } }).1 ≠
      { canvas := some ⟨1, 640, 480⟩, externalCanvas := none,
        watermarkCanvas := none, mediaRecorder := some ⟨7, .recording⟩,
        recordedChunks := [5], startTime := 100, animationFrameId := none,
        watermarkImageLoaded := false,
        options :=
            { fps := 30, videoBitsPerSecond := 5000000, watermark := none } } := by
  decide

/-- C1 witness: the amended theorem applied at the concrete `Recording`
state above. -/
theorem start_double_reissues_capture_witness :
    (start
        { now := 201, captureOk := true, streamId := 10,
          supported := [], rafId := 3,
          setup := { newCanvasId := 9, load := .success } }
        { canvas := some ⟨1, 640, 480⟩, externalCanvas := none,
          watermarkCanvas := none, mediaRecorder := some ⟨7, .recording⟩,
          recordedChunks := [5], startTime := 100, animationFrameId := none,
          watermarkImageLoaded := false,
          options :=
            { fps := 30, videoBitsPerSecond := 5000000, watermark := none } }).2.2 = none ∧
    (∃ cid f, Event.streamCaptured cid f ∈
      (start
        { now := 201, captureOk := true, streamId := 10,
          supported := [], rafId := 3,
          setup := { newCanvasId := 9, load := .success } }
        { canvas := some ⟨1, 640, 480⟩, externalCanvas := none,
          watermarkCanvas := none, mediaRecorder := some ⟨7, .recording⟩,
          recordedChunks := [5], startTime := 100, animationFrameId := none,
          watermarkImageLoaded := false,
          options :=
            { fps := 30, videoBitsPerSecond := 5000000, watermark := none } }).2.1) :=
  ⟨(start_double_reissues_capture _ _ ⟨7, .recording⟩ rfl rfl rfl).2.1,
    (start_double_reissues_capture _ _ ⟨7, .recording⟩ rfl rfl rfl).2.2.1⟩

/-- C2 (amended): when `captureStream` throws, `start()` rejects, but
partial state remains: the allocated watermark canvas is retained (never
released), the chunk list has been cleared and the start timestamp reset;
only the `MediaRecorder` field is untouched. -/
theorem start_capture_failure_keeps_state (env : StartEnv)
    (s : RecorderState) (h1 : env.captureOk = false)
    (h2 : s.options.watermark.isSome = true) :
    (start env s).2.2 = some .captureThrew ∧
    (start env s).1.watermarkCanvas.isSome = true ∧
    (start env s).1.recordedChunks = [] ∧
    (start env s).1.startTime = env.now ∧
    (start env s).1.mediaRecorder = s.mediaRecorder := by
  refine ⟨?_, ?_, ?_, ?_, ?_⟩ <;>
    simp only [start, h1, Bool.false_eq_true, if_false] <;>
    split <;>
    simp_all [setupWatermark_watermarkCanvas,
      (setupWatermark_fields _ _).2.2.1,
      (setupWatermark_fields _ _).2.2.2.1,
      (setupWatermark_fields _ _).2.2.2.2.1, Option.isSome_iff_ne_none]

/-- C2 counterexample: at a concrete recorder with a watermark, a failing
`captureStream` leaves the watermark canvas allocated and the session
fields changed from their pre-call values, contradicting "no partial
state". -/
theorem start_capture_failure_partial_state_cex :
    (start
        { now := 42, captureOk := false, streamId := 0, supported := [],
          rafId := 0, setup := { newCanvasId := 3, load := .success } }
        { canvas := some ⟨1, 640, 480⟩, externalCanvas := none,
          watermarkCanvas := some ⟨2, 640, 480⟩, mediaRecorder := none,
          recordedChunks := [], startTime := 0, animationFrameId := none,
          watermarkImageLoaded := false,
          options :=
            { fps := 30, videoBitsPerSecond := 5000000, watermark := some { text := some "wm" } } }).2.2 =
      some .captureThrew ∧
    (start
        { now := 42, captureOk := false, streamId := 0, supported := [],
          rafId := 0, setup := { newCanvasId := 3, load := .success } }
        { canvas := some ⟨1, 640, 480⟩, externalCanvas := none,
          watermarkCanvas := some ⟨2, 640, 480⟩, mediaRecorder := none,
          recordedChunks := [], startTime := 0, animationFrameId := none,
          watermarkImageLoaded := false,
          options :=
            { fps := 30, videoBitsPerSecond := 5000000, watermark := some { text := some "wm" } } }).1.watermarkCanvas =
      some ⟨2, 640, 480⟩ ∧
    (start
        { now := 42, captureOk := false, streamId := 0, supported := [],
          rafId := 0, setup := { newCanvasId := 3, load := .success } }
        { canvas := some ⟨1, 640, 480⟩, externalCanvas := none,
          watermarkCanvas := some ⟨2, 640, 480⟩, mediaRecorder := none,
          recordedChunks := [], startTime := 0, animationFrameId := none,
          watermarkImageLoaded := false,
          options :=
            { fps := 30, videoBitsPerSecond := 5000000, watermark := some { text := some "wm" } } }).1 ≠
      { canvas := some ⟨1, 640, 480⟩, externalCanvas := none,
        watermarkCanvas := some ⟨2, 640, 480⟩, mediaRecorder := none,
        recordedChunks := [], startTime := 0, animationFrameId := none,
        watermarkImageLoaded := false,
        options :=
            { fps := 30, videoBitsPerSecond := 5000000, watermark := some { text := some "wm" } } } := by
  decide

/-- C2 witness: the amended theorem applied at the concrete recorder
above. -/
theorem start_capture_failure_keeps_state_witness :
    (start
        { now := 43, captureOk := false, streamId := 0, supported := [],
          rafId := 0, setup := { newCanvasId := 3, load := .success } }
        { canvas := some ⟨1, 640, 480⟩, externalCanvas := none,
          watermarkCanvas := some ⟨2, 640, 480⟩, mediaRecorder := none,
          recordedChunks := [7], startTime := 1, animationFrameId := none,
          watermarkImageLoaded := false,
          options :=
            { fps := 30, videoBitsPerSecond := 5000000, watermark := some { text := some "wm" } } }).2.2 =
      some .captureThrew ∧
    (start
        { now := 43, captureOk := false, streamId := 0, supported := [],
          rafId := 0, setup := { newCanvasId := 3, load := .success } }
        { canvas := some ⟨1, 640, 480⟩, externalCanvas := none,
          watermarkCanvas := some ⟨2, 640, 480⟩, mediaRecorder := none,
          recordedChunks := [7], startTime := 1, animationFrameId := none,
          watermarkImageLoaded := false,
          options :=
            { fps := 30, videoBitsPerSecond := 5000000, watermark := some { text := some "wm" } } }).1.watermarkCanvas.isSome =
      true :=
  ⟨(start_capture_failure_keeps_state
      { now := 43, captureOk := false, streamId := 0, supported := [],
        rafId := 0, setup := { newCanvasId := 3, load := .success } }
      { canvas := some ⟨1, 640, 480⟩, externalCanvas := none,
        watermarkCanvas := some ⟨2, 640, 480⟩, mediaRecorder := none,
        recordedChunks := [7], startTime := 1, animationFrameId := none,
        watermarkImageLoaded := false,
        options :=
          { fps := 30, videoBitsPerSecond := 5000000, watermark := some { text := some "wm" } } }
      rfl rfl).1,
    (start_capture_failure_keeps_state
      { now := 43, captureOk := false, streamId := 0, supported := [],
        rafId := 0, setup := { newCanvasId := 3, load := .success } }
      { canvas := some ⟨1, 640, 480⟩, externalCanvas := none,
        watermarkCanvas := some ⟨2, 640, 480⟩, mediaRecorder := none,
        recordedChunks := [7], startTime := 1, animationFrameId := none,
        watermarkImageLoaded := false,
        options :=
          { fps := 30, videoBitsPerSecond := 5000000, watermark := some { text := some "wm" } } }
      rfl rfl).2.1⟩

/-- C3: a URL-sourced watermark image that fails to load resolves (never
rejects) with no image available and a logged warning; a recorder
constructed with such a watermark has no resolved image, `start()` still
succeeds and leaves the image unresolved, and the composite pass with an
unresolved image skips the image-drawing step while still performing the
source copy, the bars, and the text step. -/
theorem watermark_url_load_failure_soft (u : String)
    (wm : WatermarkOptions) (c : Canvas) (env : StartEnv)
    (measure : ℚ → String → ℚ) (W H nW nH : ℚ) (s : RecorderState)
    (h1 : wm.image = some (.url u)) (h2 : env.setup.load = .failure)
    (h3 : env.captureOk = true)
    (h4 : mkCanvasRecorder env.setup
      { canvas := some c, watermark := some wm } = .ok s) :
    loadWatermarkImage (.url u) .failure =
      { resolved := true, loaded := false, warned := true } ∧
    s.watermarkImageLoaded = false ∧
    (start env s).2.2 = none ∧
    (start env s).1.watermarkImageLoaded = false ∧
    compositeOps measure W H nW nH wm false =
      DrawOp.copySource ::
        (((wm.bars.getD []).map (barOps measure W H)).flatten ++
          textOps measure W H wm) := by
  have h4' : setupWatermark env.setup
      { canvas := some c, externalCanvas := none, watermarkCanvas := none,
        mediaRecorder := none, recordedChunks := [], startTime := 0,
        animationFrameId := none, watermarkImageLoaded := false,
        options :=
            { fps := 30, videoBitsPerSecond := 5000000, watermark := some wm } } = s := by
    simpa [mkCanvasRecorder] using h4
  have hload : s.watermarkImageLoaded = false := by
    rw [← h4']
    simp [setupWatermark, h1, h2, loadWatermarkImage]
  have hc : s.watermarkCanvas.isSome = true := by
    rw [← h4']
    simp [setupWatermark, h1]
  have hcond : ¬ (s.options.watermark.isSome = true ∧
      s.watermarkCanvas = none) := by
    rintro ⟨-, hnone⟩
    rw [hnone] at hc
    simp at hc
  refine ⟨rfl, hload, ?_, ?_, ?_⟩
  · simp [start, h3, hcond, hc]
  · simp [start, h3, hcond, hc, hload]
  · rw [compositeOps_eq]
    simp

/-- C3 witness: the theorem applied at a concrete unreachable URL,
recorder and environment. -/
theorem watermark_url_load_failure_soft_witness :
    loadWatermarkImage (.url "https://example.invalid/logo.png") .failure =
      { resolved := true, loaded := false, warned := true } ∧
    (start
        { now := 5, captureOk := true, streamId := 2,
          supported := ["video/webm;codecs=vp9"], rafId := 4,
          setup := { newCanvasId := 9, load := .failure } }
        { canvas := some ⟨1, 640, 480⟩, externalCanvas := none,
          watermarkCanvas := some ⟨9, 640, 480⟩, mediaRecorder := none,
          recordedChunks := [], startTime := 0, animationFrameId := none,
          watermarkImageLoaded := false,
          options :=
            { fps := 30, videoBitsPerSecond := 5000000,
              watermark := some
                { text := some "t",
                  image := some (.url "https://example.invalid/logo.png") } } }).2.2 =
      none :=
  ⟨(watermark_url_load_failure_soft "https://example.invalid/logo.png"
      { text := some "t",
        image := some (.url "https://example.invalid/logo.png") }
      ⟨1, 640, 480⟩
      { now := 5, captureOk := true, streamId := 2,
        supported := ["video/webm;codecs=vp9"], rafId := 4,
        setup := { newCanvasId := 9, load := .failure } }
      (fun _ _ => 0) 640 480 0 0 _ rfl rfl rfl rfl).1,
    (watermark_url_load_failure_soft "https://example.invalid/logo.png"
      { text := some "t",
        image := some (.url "https://example.invalid/logo.png") }
      ⟨1, 640, 480⟩
      { now := 5, captureOk := true, streamId := 2,
        supported := ["video/webm;codecs=vp9"], rafId := 4,
        setup := { newCanvasId := 9, load := .failure } }
      (fun _ _ => 0) 640 480 0 0 _ rfl rfl rfl rfl).2.2.1⟩

/-- C4: `stop()` on a recorder with no prior successful `start()` (its
`mediaRecorder` is still `null`, as after construction or a failed
`start()`) rejects with the no-active-recording error and performs no
resource mutation: the state, including chunk list, timer, canvases and
stream fields, is returned unchanged and no events are emitted. -/
theorem stop_without_start_rejects_no_mutation (env : StopEnv)
    (s : RecorderState) (h : s.mediaRecorder = none) :
    stop env s = (s, [], .noActive) ∧
    (∀ (env' : SetupEnv) (opts : RecorderOptions) (s' : RecorderState),
      mkCanvasRecorder env' opts = .ok s' → s'.mediaRecorder = none) ∧
    (∀ env'' : StartEnv, env''.captureOk = false →
      ((start env'' s).1).mediaRecorder = none) := by
  refine ⟨by simp [stop, h], ?_, ?_⟩
  · intro env' opts s' hok
    rcases hec : opts.externalCanvas with _ | ec <;>
      rcases hc : opts.canvas with _ | c <;>
      rcases hw : opts.watermark with _ | w <;>
      simp only [mkCanvasRecorder, hec, hc, hw] at hok <;>
      (try cases hok) <;>
      simp [(setupWatermark_fields _ _).2.2.1]
  · intro env'' h''
    simp only [start, h'', Bool.false_eq_true, if_false]
    split <;> simp [(setupWatermark_fields _ _).2.2.1, h]

/-- C4 witness: the theorem applied at a concrete freshly-constructed
recorder. -/
theorem stop_without_start_rejects_no_mutation_witness :
    stop { now := 0 }
        { canvas := some ⟨1, 640, 480⟩, externalCanvas := none,
          watermarkCanvas := none, mediaRecorder := none,
          recordedChunks := [], startTime := 0, animationFrameId := none,
          watermarkImageLoaded := false,
          options :=
            { fps := 30, videoBitsPerSecond := 5000000, watermark := none } } =
      ({ canvas := some ⟨1, 640, 480⟩, externalCanvas := none,
          watermarkCanvas := none, mediaRecorder := none,
          recordedChunks := [], startTime := 0, animationFrameId := none,
          watermarkImageLoaded := false,
          options :=
            { fps := 30, videoBitsPerSecond := 5000000, watermark := none } }, [], .noActive) :=
  (stop_without_start_rejects_no_mutation { now := 0 } _ rfl).1

end CanvasRecorder
